import Mathlib

/-!
Verification of the platform-independent event/code model of the gilrs
gamepad library, embedded shallowly from `src/gilrs/src/ev/mod.rs`.
Machine integers are modelled as `Nat`; the `f32` payload of value-carrying
events is a type parameter, since none of the verified code inspects it.
-/

namespace Gilrs

/-- Modelled from the spec: `gilrs_core::EvCode` is not under `src/`; the spec
says `Code` "wraps a backend-native integer/handle", so we model the native
event code as a natural number. -/
abbrev EvCode := Nat

/-- Platform specific event code: `pub struct Code(pub(crate) gilrs_core::EvCode)`
from `src/gilrs/src/ev/mod.rs`. -/
structure Code where
  val : EvCode
deriving DecidableEq, BEq, Repr

namespace necs

/-- Modelled from the spec: the constants of `gilrs_core::native_ev_codes` are
not under `src/`. The spec says the backend supplies "the native-code table
powering `Button::to_nec`'s inverse" (`to_canonical`), i.e. a canonical code
table with one distinct code per semantic button, modelled here as the
naturals 0..18. -/
def BTN_SOUTH : EvCode := 0

/-- Modelled from the spec: canonical native code, see `necs.BTN_SOUTH`. -/
def BTN_EAST : EvCode := 1

/-- Modelled from the spec: canonical native code, see `necs.BTN_SOUTH`. -/
def BTN_NORTH : EvCode := 2

/-- Modelled from the spec: canonical native code, see `necs.BTN_SOUTH`. -/
def BTN_WEST : EvCode := 3

/-- Modelled from the spec: canonical native code, see `necs.BTN_SOUTH`. -/
def BTN_C : EvCode := 4

/-- Modelled from the spec: canonical native code, see `necs.BTN_SOUTH`. -/
def BTN_Z : EvCode := 5

/-- Modelled from the spec: canonical native code, see `necs.BTN_SOUTH`. -/
def BTN_LT : EvCode := 6

/-- Modelled from the spec: canonical native code, see `necs.BTN_SOUTH`. -/
def BTN_LT2 : EvCode := 7

/-- Modelled from the spec: canonical native code, see `necs.BTN_SOUTH`. -/
def BTN_RT : EvCode := 8

/-- Modelled from the spec: canonical native code, see `necs.BTN_SOUTH`. -/
def BTN_RT2 : EvCode := 9

/-- Modelled from the spec: canonical native code, see `necs.BTN_SOUTH`. -/
def BTN_SELECT : EvCode := 10

/-- Modelled from the spec: canonical native code, see `necs.BTN_SOUTH`. -/
def BTN_START : EvCode := 11

/-- Modelled from the spec: canonical native code, see `necs.BTN_SOUTH`. -/
def BTN_MODE : EvCode := 12

/-- Modelled from the spec: canonical native code, see `necs.BTN_SOUTH`. -/
def BTN_LTHUMB : EvCode := 13

/-- Modelled from the spec: canonical native code, see `necs.BTN_SOUTH`. -/
def BTN_RTHUMB : EvCode := 14

/-- Modelled from the spec: canonical native code, see `necs.BTN_SOUTH`. -/
def BTN_DPAD_UP : EvCode := 15

/-- Modelled from the spec: canonical native code, see `necs.BTN_SOUTH`. -/
def BTN_DPAD_DOWN : EvCode := 16

/-- Modelled from the spec: canonical native code, see `necs.BTN_SOUTH`. -/
def BTN_DPAD_LEFT : EvCode := 17

/-- Modelled from the spec: canonical native code, see `necs.BTN_SOUTH`. -/
def BTN_DPAD_RIGHT : EvCode := 18

end necs

/-- The `Button` enum from `src/gilrs/src/ev/mod.rs` (lines 125-153): the
closed semantic button vocabulary. Rust guarantees the `#[repr(u16)]`
discriminants are pairwise distinct, so a plain inductive is faithful. -/
inductive Button where
  | South
  | East
  | North
  | West
  | C
  | Z
  | LeftTrigger
  | LeftTrigger2
  | RightTrigger
  | RightTrigger2
  | Select
  | Start
  | Mode
  | LeftThumb
  | RightThumb
  | DPadUp
  | DPadDown
  | DPadLeft
  | DPadRight
  | Unknown
deriving DecidableEq, BEq, Repr, Fintype

/-- `#[default] Unknown`: the derived `Default` implementation picks the
variant carrying the `#[default]` attribute. -/
instance : Inhabited Button := ⟨Button.Unknown⟩

namespace Button

/-- `Button::is_action` (`matches!(self, South | East | North | West | C | Z)`). -/
def is_action : Button → Bool
  | .South | .East | .North | .West | .C | .Z => true
  | _ => false

/-- `Button::is_trigger` (`matches!(self, LeftTrigger | LeftTrigger2 | RightTrigger | RightTrigger2)`). -/
def is_trigger : Button → Bool
  | .LeftTrigger | .LeftTrigger2 | .RightTrigger | .RightTrigger2 => true
  | _ => false

/-- `Button::is_menu` (`matches!(self, Select | Start | Mode)`). -/
def is_menu : Button → Bool
  | .Select | .Start | .Mode => true
  | _ => false

/-- `Button::is_stick` (`matches!(self, LeftThumb | RightThumb)`). -/
def is_stick : Button → Bool
  | .LeftThumb | .RightThumb => true
  | _ => false

/-- `Button::is_dpad` (`matches!(self, DPadUp | DPadDown | DPadLeft | DPadRight)`). -/
def is_dpad : Button → Bool
  | .DPadUp | .DPadDown | .DPadLeft | .DPadRight => true
  | _ => false

/-- `Button::to_nec`: the `match` over all named variants with `_ => None`,
followed by `.map(Code)`. -/
def to_nec (b : Button) : Option Code :=
  (match b with
    | .South => some necs.BTN_SOUTH
    | .East => some necs.BTN_EAST
    | .North => some necs.BTN_NORTH
    | .West => some necs.BTN_WEST
    | .C => some necs.BTN_C
    | .Z => some necs.BTN_Z
    | .LeftTrigger => some necs.BTN_LT
    | .LeftTrigger2 => some necs.BTN_LT2
    | .RightTrigger => some necs.BTN_RT
    | .RightTrigger2 => some necs.BTN_RT2
    | .Select => some necs.BTN_SELECT
    | .Start => some necs.BTN_START
    | .Mode => some necs.BTN_MODE
    | .LeftThumb => some necs.BTN_LTHUMB
    | .RightThumb => some necs.BTN_RTHUMB
    | .DPadUp => some necs.BTN_DPAD_UP
    | .DPadDown => some necs.BTN_DPAD_DOWN
    | .DPadLeft => some necs.BTN_DPAD_LEFT
    | .DPadRight => some necs.BTN_DPAD_RIGHT
    | _ => none
  ).map Code.mk

end Button

/-- The `Axis` enum from `src/gilrs/src/ev/mod.rs` (lines 219-229). -/
inductive Axis where
  | LeftStickX
  | LeftStickY
  | LeftZ
  | RightStickX
  | RightStickY
  | RightZ
  | DPadX
  | DPadY
  | Unknown
deriving DecidableEq, BEq, Repr, Fintype

namespace Axis

/-- `Axis::is_stick` (`matches!(self, LeftStickX | LeftStickY | RightStickX | RightStickY)`). -/
def is_stick : Axis → Bool
  | .LeftStickX | .LeftStickY | .RightStickX | .RightStickY => true
  | _ => false

/-- `Axis::second_axis`: the other axis from the same gamepad element, if any. -/
def second_axis : Axis → Option Axis
  | .LeftStickX => some .LeftStickY
  | .LeftStickY => some .LeftStickX
  | .RightStickX => some .RightStickY
  | .RightStickY => some .RightStickX
  | .DPadX => some .DPadY
  | .DPadY => some .DPadX
  | _ => none

end Axis

/-- `AxisOrBtn`: tagged union over `Axis` and `Button`. -/
inductive AxisOrBtn where
  | Axis (a : Axis)
  | Btn (b : Button)
deriving DecidableEq, BEq, Repr

/-- `AxisOrBtn::is_button` (`matches!(self, AxisOrBtn::Btn(_))`). -/
def AxisOrBtn.is_button : AxisOrBtn → Bool
  | .Btn _ => true
  | _ => false

/-- Modelled from the spec: `GamepadId` is defined in `src/gilrs/src/gamepad.rs`,
which is not under `src/`; the spec calls it a "stable opaque handle", modelled
as a natural number. -/
structure GamepadId where
  val : Nat
deriving DecidableEq, BEq, Repr

/-- `std::time::SystemTime` modelled as an opaque timestamp value. -/
abbrev SystemTime := Nat

/-- `EventType` from `src/gilrs/src/ev/mod.rs` (lines 97-117), parametrized
over the type `V` standing for Rust's `f32` value payload, which none of the
embedded operations inspect. -/
inductive EventType (V : Type) where
  | ButtonPressed (b : Button) (c : Code)
  | ButtonRepeated (b : Button) (c : Code)
  | ButtonReleased (b : Button) (c : Code)
  | ButtonChanged (b : Button) (v : V) (c : Code)
  | AxisChanged (a : Axis) (v : V) (c : Code)
  | Connected
  | Disconnected
  | Dropped
  | ForceFeedbackEffectCompleted

/-- The derived `PartialEq` of `EventType`: variants compare equal exactly
when the discriminants match and all payload fields compare equal. -/
def EventType.beq {V : Type} [BEq V] : EventType V → EventType V → Bool
  | .ButtonPressed b c, .ButtonPressed b2 c2 => b == b2 && c == c2
  | .ButtonRepeated b c, .ButtonRepeated b2 c2 => b == b2 && c == c2
  | .ButtonReleased b c, .ButtonReleased b2 c2 => b == b2 && c == c2
  | .ButtonChanged b v c, .ButtonChanged b2 v2 c2 => b == b2 && v == v2 && c == c2
  | .AxisChanged a v c, .AxisChanged a2 v2 c2 => a == a2 && v == v2 && c == c2
  | .Connected, .Connected => true
  | .Disconnected, .Disconnected => true
  | .Dropped, .Dropped => true
  | .ForceFeedbackEffectCompleted, .ForceFeedbackEffectCompleted => true
  | _, _ => false

/-- `Event` from `src/gilrs/src/ev/mod.rs` (lines 52-59): gamepad id, event
payload and timestamp. -/
structure Event (V : Type) where
  id : GamepadId
  event : EventType V
  time : SystemTime

/-- `Event::drop`: `self.event = EventType::Dropped; self`. -/
def Event.drop {V : Type} (e : Event V) : Event V :=
  { e with event := EventType.Dropped }

/-- `Event::is_dropped`: `self.event == EventType::Dropped`, using the derived
`PartialEq` of `EventType`. -/
def Event.is_dropped {V : Type} [BEq V] (e : Event V) : Bool :=
  EventType.beq e.event EventType.Dropped

end Gilrs

namespace Gilrs

/-- Claim C1: for every `Button` variant except `Unknown`, `to_nec` returns
`some` code; for `Unknown` it returns `none`. -/
theorem to_nec_some_except_unknown : ∀ b : Button,
    (b ≠ Button.Unknown → (b.to_nec).isSome = true) ∧
    (b = Button.Unknown → b.to_nec = none) := by decide

/-- Claim C2: `second_axis` is an involution on the six paired variants
(each maps to a distinct partner that maps back), and returns `none` on
`LeftZ`, `RightZ` and `Unknown`. -/
theorem second_axis_involution : ∀ a : Axis,
    ((a = Axis.LeftStickX ∨ a = Axis.LeftStickY ∨ a = Axis.RightStickX ∨
      a = Axis.RightStickY ∨ a = Axis.DPadX ∨ a = Axis.DPadY) →
      ∃ b : Axis, a.second_axis = some b ∧ b.second_axis = some a ∧ b ≠ a) ∧
    ((a = Axis.LeftZ ∨ a = Axis.RightZ ∨ a = Axis.Unknown) →
      a.second_axis = none) := by decide

/-- Claim C3: the five classification predicates partition the non-Unknown
`Button` variants — exactly one holds for each non-Unknown variant, and all
five are false on `Unknown`. -/
theorem button_predicates_partition : ∀ b : Button,
    (b ≠ Button.Unknown →
      [b.is_action, b.is_trigger, b.is_menu, b.is_stick, b.is_dpad].count true = 1) ∧
    (b = Button.Unknown →
      b.is_action = false ∧ b.is_trigger = false ∧ b.is_menu = false ∧
      b.is_stick = false ∧ b.is_dpad = false) := by decide

/-- Claim C4, counterexample: the spec counts 18 semantic buttons and 9
semantic axes, but the enums have 19 and 8 non-Unknown variants. -/
theorem variant_count_claim_false :
    ¬((Finset.univ.filter (fun b : Button => b ≠ Button.Unknown)).card = 18 ∧
      (Finset.univ.filter (fun a : Axis => a ≠ Axis.Unknown)).card = 9) := by decide

/-- Claim C4, amended: the `Button` enum has exactly 19 semantic (non-Unknown)
variants plus `Unknown`, and the `Axis` enum exactly 8 plus `Unknown`. -/
theorem variant_count :
    (Finset.univ.filter (fun b : Button => b ≠ Button.Unknown)).card = 19 ∧
    Fintype.card Button = 20 ∧
    (Finset.univ.filter (fun a : Axis => a ≠ Axis.Unknown)).card = 8 ∧
    Fintype.card Axis = 9 := by decide

/-- Claim C5: `drop` replaces the payload with `Dropped`, `is_dropped` holds
exactly on events whose payload is `Dropped`, and hence `e.drop().is_dropped()`
is true for every event. -/
theorem drop_dropped_and_is_dropped_iff {V : Type} [BEq V] (e : Event V) :
    (e.drop).event = EventType.Dropped ∧
    (e.is_dropped = true ↔ e.event = EventType.Dropped) ∧
    (e.drop).is_dropped = true := by
  refine ⟨rfl, ?_, rfl⟩
  cases h : e.event <;> simp [Event.is_dropped, EventType.beq, h]

/-- Claim C6: `drop` leaves every field other than the payload unchanged:
the id and timestamp survive. -/
theorem drop_preserves_id_and_time {V : Type} (e : Event V) :
    (e.drop).id = e.id ∧ (e.drop).time = e.time := ⟨rfl, rfl⟩

/-- Claim C7: `is_button` returns true exactly on the `Btn` variant of
`AxisOrBtn`. -/
theorem is_button_iff_btn (v : AxisOrBtn) :
    v.is_button = true ↔ ∃ b : Button, v = AxisOrBtn.Btn b := by
  cases v <;> simp [AxisOrBtn.is_button]

/-- Claim C8: the default `Button` value is `Unknown`. -/
theorem default_button_unknown : (default : Button) = Button.Unknown := rfl

/-- Claim C9: `to_nec` is injective on the non-Unknown variants — two distinct
non-Unknown buttons map to `some` of distinct codes. -/
theorem to_nec_injective :
    ∀ b1 b2 : Button, b1 ≠ Button.Unknown → b2 ≠ Button.Unknown → b1 ≠ b2 →
      (b1.to_nec).isSome = true ∧ (b2.to_nec).isSome = true ∧
      b1.to_nec ≠ b2.to_nec := by decide

/-- Claim C9, witness: `South` and `East` are distinct non-Unknown buttons
with distinct `some` codes. -/
theorem to_nec_injective_witness :
    (Button.to_nec Button.South).isSome = true ∧
    (Button.to_nec Button.East).isSome = true ∧
    Button.to_nec Button.South ≠ Button.to_nec Button.East :=
  to_nec_injective Button.South Button.East (by decide) (by decide) (by decide)

/-- Claim C10: `second_axis` maps stick axes to stick axes, and is `some`
exactly on the four stick axes and `DPadX`/`DPadY`. -/
theorem second_axis_stick_pairing : ∀ a : Axis,
    (a.is_stick = true → ∃ b : Axis, a.second_axis = some b ∧ b.is_stick = true) ∧
    ((a.second_axis).isSome = true ↔
      (a.is_stick = true ∨ a = Axis.DPadX ∨ a = Axis.DPadY)) := by decide

end Gilrs
